import Mathlib

set_option autoImplicit false

/-!
Verification development for the cadoz-api conversational recommendation
pipeline.  The Python sources (logic.py, understanding.py, session.py) are
shallowly embedded below: pure functions become Lean functions, the regular
expressions of understanding.py are compiled by hand into explicit scanners
over lists of characters, and the per-request session side effect is modelled
by explicit state passing over an association-list store.

Modelling conventions, used throughout:
* Python strings are Lean `String`s; character-level work happens on `.data`.
* Python `\w` (with Unicode semantics) is modelled by `isWordChar`, covering
  ASCII alphanumerics, the underscore, Arabic letters and Arabic-Indic
  digits - exactly the alphabet occurring in the keyword tables and inputs.
* Python `\d` (digits) is modelled by ASCII digits, the only digits occurring
  in the sources and the inputs considered.
* `str.lower` is modelled on ASCII letters; Arabic has no letter case.
* Python `list(set(xs))` has an unspecified iteration order; it is modelled
  by first-occurrence deduplication (`pySetList`), and theorems that depend
  on it are stated so that they hold for every iteration order (element-set
  and duplicate-freeness only) unless noted.
* `time.time()` is passed in explicitly as a `Nat` parameter named `now`.
-/

/-! ## Generic association-list lookup (model of Python dict access)

The Python dictionaries in the sources are literal tables; they are embedded
as association lists in the literal insertion order.  `alookup` returns the
first binding, which agrees with Python dict lookup because no table binds
the same key to two different values. -/

def alookup {α β : Type} [DecidableEq α] : List (α × β) → α → Option β
  | [], _ => none
  | (k, v) :: rest, key => if key = k then some v else alookup rest key

theorem alookup_mem {α β : Type} [DecidableEq α] (l : List (α × β)) (key : α)
    (v : β) (h : alookup l key = some v) : (key, v) ∈ l := by
  induction l with
  | nil => simp [alookup] at h
  | cons p rest ih =>
    obtain ⟨k, w⟩ := p
    by_cases hk : key = k
    · subst hk
      simp [alookup] at h
      simp [h]
    · simp [alookup, hk] at h
      exact List.mem_cons_of_mem _ (ih h)

/-! ## Character-level helpers -/

/-- Model of `str.lower` on a single character (ASCII letters only; the
Arabic script has no case distinction). -/
def lowerTable : List (Char × Char) :=
  [('A','a'),('B','b'),('C','c'),('D','d'),('E','e'),('F','f'),('G','g'),
   ('H','h'),('I','i'),('J','j'),('K','k'),('L','l'),('M','m'),('N','n'),
   ('O','o'),('P','p'),('Q','q'),('R','r'),('S','s'),('T','t'),('U','u'),
   ('V','v'),('W','w'),('X','x'),('Y','y'),('Z','z')]

def pyLowerChar (c : Char) : Char :=
  match alookup lowerTable c with
  | some d => d
  | none => c

/-- One character of `.replace('_', '-').replace('–', '-')` from
`normalize_season_or_occasion` (both replacements are single characters,
so the two string replaces compose character-wise). -/
def replDashChar (c : Char) : Char :=
  if c = '_' then '-' else if c = '–' then '-' else c

/-- The composite character map of `.lower().replace('_','-').replace('–','-')`. -/
def nsoChar (c : Char) : Char := replDashChar (pyLowerChar c)

/-- Python `str.strip()` on a character list: drop whitespace at both ends. -/
def pyStrip (cs : List Char) : List Char :=
  ((cs.dropWhile Char.isWhitespace).reverse.dropWhile Char.isWhitespace).reverse

/-- The normalization part of `normalize_season_or_occasion`:
`str(val).strip().lower().replace('_', '-').replace('–', '-')`. -/
def nsoNorm (cs : List Char) : List Char := (pyStrip cs).map nsoChar

/-- Exact transcription of `SEASON_OCCASION_MAP` from logic.py (insertion
order preserved; the literal repeats some keys with identical values, which
makes first-binding lookup agree with Python dict semantics). -/
def SEASON_OCCASION_MAP : List (String × String) :=
  [("رمضان", "ramadan"), ("ramadan", "ramadan"), ("رمضان كريم", "ramadan"),
   ("ramdan", "ramadan"), ("رمضان2025", "ramadan"),
   ("عيد الفطر", "eid-al-fitr"), ("عيد الفطر المبارك", "eid-al-fitr"),
   ("eid_al_fitr", "eid-al-fitr"), ("eid-al-fitr", "eid-al-fitr"),
   ("eid", "eid-al-fitr"), ("el3id", "eid-al-fitr"),
   ("العيد الصغير", "eid-al-fitr"), ("العيد", "eid-al-fitr"),
   ("عيد الأضحى", "eid-al-adha"), ("عيد الاضحى", "eid-al-adha"),
   ("eid_al_adha", "eid-al-adha"), ("eid-al-adha", "eid-al-adha"),
   ("العيد الكبير", "eid-al-adha"), ("el3id elkbeer", "eid-al-adha"),
   ("المولد النبوي", "mawlid"), ("mawlid", "mawlid"), ("المولد", "mawlid"),
   ("elmawlid", "mawlid"),
   ("شم النسيم", "sham-el-nessim"), ("sham-el-nessim", "sham-el-nessim"),
   ("sham el nessim", "sham-el-nessim"), ("sham", "sham-el-nessim"),
   ("عيد الحب", "valentine"), ("valentine", "valentine"),
   ("فالنتين", "valentine"), ("فالنتاين", "valentine"),
   ("valantine", "valentine"), ("عيد العشاق", "valentine"),
   ("val", "valentine"),
   ("عيد الأم", "mothers-day"), ("عيد الام", "mothers-day"),
   ("mothers_day", "mothers-day"), ("mothers-day", "mothers-day"),
   ("عيد الامهات", "mothers-day"), ("عيد الامهات", "mothers-day"),
   ("عيد الامهات", "mothers-day"), ("عيد الامهات", "mothers-day"),
   ("عيد الامهات", "mothers-day"), ("عيد الامهات", "mothers-day"),
   ("رأس السنة", "new-year"), ("رأس السنه", "new-year"),
   ("new_year", "new-year"), ("new-year", "new-year"),
   ("راس السنه", "new-year"), ("راس السنة", "new-year"),
   ("راس السنه الميلاديه", "new-year"), ("راس السنة الميلادية", "new-year"),
   ("ny", "new-year"),
   ("الكريسماس", "christmas"), ("christmas", "christmas"),
   ("xmas", "christmas"), ("كريسماس", "christmas"),
   ("عيد الكريسماس", "christmas"),
   ("الكل", "all"), ("all", "all"), ("كل المناسبات", "all"),
   ("اي مناسبة", "all"),
   ("عيد الزواج", "wedding"), ("wedding", "wedding"),
   ("anniversary", "wedding"), ("anniv", "wedding"), ("عيد جواز", "wedding"),
   ("عيد زواج", "wedding"),
   ("عيد ميلاد", "birthday"), ("عيد الميلاد", "birthday"),
   ("birthday", "birthday"), ("bday", "birthday"),
   ("عيد ميلادي", "birthday"), ("عيد ميلاد سعيد", "birthday")]

/-- The string form of `nsoNorm`. -/
def nsoNormStr (s : String) : String := String.mk (nsoNorm s.data)

/-- Model of `normalize_season_or_occasion` (logic.py).  The `if not val`
falsiness test specializes to the empty-string test because the function is
applied to season and occasion strings. -/
def normalize_season_or_occasion (val : String) : String :=
  if val = "" then ""
  else
    let n := nsoNormStr val
    match alookup SEASON_OCCASION_MAP n with
    | some c => c
    | none => n

/-! ### Idempotence infrastructure for claim C10 -/

theorem nsoChar_idem (c : Char) : nsoChar (nsoChar c) = nsoChar c := by
  unfold nsoChar pyLowerChar
  cases h : alookup lowerTable c with
  | some d =>
    have hd := alookup_mem _ _ _ h
    have hfacts : ∀ p ∈ lowerTable,
        alookup lowerTable (replDashChar p.2) = none ∧
          replDashChar p.2 = p.2 := by decide
    obtain ⟨h1, h2⟩ := hfacts _ hd
    simp only [h2] at h1 ⊢
    simp [h1, h2]
  | none =>
    by_cases hu : c = '_'
    · subst hu; decide
    · by_cases hd : c = '–'
      · subst hd; decide
      · simp [replDashChar, hu, hd, h]

theorem nsoChar_not_ws (c : Char) (h : c.isWhitespace = false) :
    (nsoChar c).isWhitespace = false := by
  unfold nsoChar pyLowerChar
  cases hl : alookup lowerTable c with
  | some d =>
    have hd := alookup_mem _ _ _ hl
    have hfacts : ∀ p ∈ lowerTable,
        (replDashChar p.2).isWhitespace = false := by decide
    exact hfacts _ hd
  | none =>
    by_cases hu : c = '_'
    · subst hu; decide
    · by_cases hdd : c = '–'
      · subst hdd; decide
      · simpa [replDashChar, hu, hdd] using h

theorem dropWhile_idem {α : Type} (p : α → Bool) (l : List α) :
    (l.dropWhile p).dropWhile p = l.dropWhile p := by
  induction l with
  | nil => rfl
  | cons c cs ih =>
    by_cases hpc : p c = true
    · simp [List.dropWhile_cons, hpc, ih]
    · simp [List.dropWhile_cons, hpc]

theorem dropWhile_eq_self_of_prefix {α : Type} {p : α → Bool} {P X : List α}
    (hpre : P <+: X) (hX : X.dropWhile p = X) : P.dropWhile p = P := by
  cases P with
  | nil => rfl
  | cons a as =>
    obtain ⟨t, ht⟩ := hpre
    have hpa : p a = false := by
      by_contra hcon
      have hpa : p a = true := by simpa using hcon
      rw [← ht, List.cons_append, List.dropWhile_cons, if_pos hpa] at hX
      have hle := (List.dropWhile_suffix (l := as ++ t) p).length_le
      rw [hX] at hle
      simp at hle
    simp [List.dropWhile_cons, hpa]

theorem pyStrip_dropWhile (l : List Char) :
    (pyStrip l).dropWhile Char.isWhitespace = pyStrip l := by
  have h1 : (l.dropWhile Char.isWhitespace).dropWhile Char.isWhitespace =
      l.dropWhile Char.isWhitespace := dropWhile_idem _ _
  have hsuf : ((l.dropWhile Char.isWhitespace).reverse.dropWhile
      Char.isWhitespace) <:+ (l.dropWhile Char.isWhitespace).reverse :=
    List.dropWhile_suffix _
  have hpre : pyStrip l <+: l.dropWhile Char.isWhitespace := by
    have h2 := hsuf.reverse
    simpa [pyStrip] using h2
  exact dropWhile_eq_self_of_prefix hpre h1

theorem pyStrip_reverse_dropWhile (l : List Char) :
    (pyStrip l).reverse.dropWhile Char.isWhitespace = (pyStrip l).reverse := by
  have h0 : (pyStrip l).reverse = (l.dropWhile
      Char.isWhitespace).reverse.dropWhile Char.isWhitespace := by
    unfold pyStrip
    rw [List.reverse_reverse]
  rw [h0, dropWhile_idem]

theorem pyStrip_idem (l : List Char) : pyStrip (pyStrip l) = pyStrip l := by
  have h0 : pyStrip (pyStrip l) = (((pyStrip l).dropWhile
      Char.isWhitespace).reverse.dropWhile Char.isWhitespace).reverse := rfl
  rw [h0, pyStrip_dropWhile, pyStrip_reverse_dropWhile, List.reverse_reverse]

theorem dropWhile_map_eq_self {α : Type} {p : α → Bool} {f : α → α}
    {P : List α} (hP : P.dropWhile p = P)
    (hf : ∀ c, p c = false → p (f c) = false) :
    (P.map f).dropWhile p = P.map f := by
  cases P with
  | nil => rfl
  | cons a as =>
    have hpa : p a = false := by
      by_contra hcon
      have hpa : p a = true := by simpa using hcon
      rw [List.dropWhile_cons, if_pos hpa] at hP
      have hlen := congrArg List.length hP
      have hle := (List.dropWhile_suffix (l := as) p).length_le
      simp at hlen
      omega
    simp [List.dropWhile_cons, hf a hpa]

theorem pyStrip_map_nsoChar (l : List Char) :
    pyStrip ((pyStrip l).map nsoChar) = (pyStrip l).map nsoChar := by
  have hlead : ((pyStrip l).map nsoChar).dropWhile Char.isWhitespace =
      (pyStrip l).map nsoChar :=
    dropWhile_map_eq_self (pyStrip_dropWhile l) nsoChar_not_ws
  have htrail : ((pyStrip l).reverse.map nsoChar).dropWhile Char.isWhitespace =
      (pyStrip l).reverse.map nsoChar :=
    dropWhile_map_eq_self (pyStrip_reverse_dropWhile l) nsoChar_not_ws
  have h0 : pyStrip ((pyStrip l).map nsoChar) =
      ((((pyStrip l).map nsoChar).dropWhile
        Char.isWhitespace).reverse.dropWhile Char.isWhitespace).reverse := rfl
  rw [h0, hlead, ← List.map_reverse, htrail, List.map_reverse,
    List.reverse_reverse]

theorem nsoNorm_idem (l : List Char) : nsoNorm (nsoNorm l) = nsoNorm l := by
  show (pyStrip ((pyStrip l).map nsoChar)).map nsoChar =
    (pyStrip l).map nsoChar
  rw [pyStrip_map_nsoChar, List.map_map]
  exact List.map_congr_left fun c _ => nsoChar_idem c

theorem nsoNormStr_idem (s : String) : nsoNormStr (nsoNormStr s) = nsoNormStr s := by
  unfold nsoNormStr
  have h : (String.mk (nsoNorm s.data)).data = nsoNorm s.data := rfl
  rw [h, nsoNorm_idem]

/-- Per-value facts about `SEASON_OCCASION_MAP`: every canonical token the
table produces is nonempty, already normalized, and maps to itself. -/
theorem seasonMapValueFacts : ∀ p ∈ SEASON_OCCASION_MAP,
    p.2 ≠ "" ∧ nsoNormStr p.2 = p.2 ∧
      alookup SEASON_OCCASION_MAP p.2 = some p.2 := by decide

/-- C10: the season/occasion canonicalization function is idempotent: for
every input string v, applying `normalize_season_or_occasion` twice gives the
same result as applying it once. -/
theorem c10_normalize_season_or_occasion_idempotent (v : String) :
    normalize_season_or_occasion (normalize_season_or_occasion v) =
      normalize_season_or_occasion v := by
  unfold normalize_season_or_occasion
  by_cases hv : v = ""
  · simp [hv]
  · simp only [if_neg hv]
    cases hm : alookup SEASON_OCCASION_MAP (nsoNormStr v) with
    | some c =>
      obtain ⟨hne, hnorm, hloop⟩ := seasonMapValueFacts _ (alookup_mem _ _ _ hm)
      simp only [if_neg hne, hnorm, hloop]
    | none =>
      by_cases hn : nsoNormStr v = ""
      · simp [hn]
      · simp only [if_neg hn, nsoNormStr_idem, hm]

/-! ## Word-boundary keyword matching (understanding.py)

`_extract_from_keywords` searches `re.search(r'\b' + re.escape(kw) + r'\b',
text, re.IGNORECASE)`.  The scanners below implement that by hand: a literal
(case-folded) match at some position whose two ends lie on `\b` boundaries.
Python `\w` (Unicode) is modelled by `isWordChar` for the alphabet occurring
in this code base: ASCII alphanumerics, underscore, Arabic letters
(U+0620-U+064A) and Arabic-Indic digits (U+0660-U+0669); Arabic combining
marks and punctuation are non-word characters, as in Python. -/

def isWordChar (c : Char) : Bool :=
  c.isAlphanum || c = '_' ||
    (0x620 ≤ c.toNat && c.toNat ≤ 0x64A) ||
    (0x660 ≤ c.toNat && c.toNat ≤ 0x669)

def optIsWord : Option Char → Bool
  | none => false
  | some c => isWordChar c

/-- Python `\b`: a boundary lies between two adjacent positions iff exactly
one of the two surrounding characters (none at the ends of the string) is a
word character. -/
def boundaryOpt (a b : Option Char) : Bool := optIsWord a != optIsWord b

/-- Word-boundary test where only the word-character status of the left
character is known (used after consuming digits, which are word chars). -/
def boundaryB (aWord : Bool) (b : Option Char) : Bool := aWord != optIsWord b

/-- Case-insensitive literal match (`re.IGNORECASE` with an escaped literal):
if `pat` matches a prefix of the text, return the remaining suffix. -/
def matchLit : List Char → List Char → Option (List Char)
  | [], rest => some rest
  | _ :: _, [] => none
  | k :: ks, c :: cs => if pyLowerChar c = pyLowerChar k then matchLit ks cs else none

/-- Scan every position of the text for `kw` delimited by `\b` on both sides.
`prev` is the character just before the current position.  Keywords are
nonempty, so a match cannot start at the end of the text. -/
def kwScanAux (kw : List Char) : Option Char → List Char → Bool
  | _, [] => false
  | prev, c :: rest =>
    (match matchLit kw (c :: rest) with
     | some after =>
       boundaryOpt prev (some c) && boundaryOpt kw.getLast? after.head?
     | none => false) ||
    kwScanAux kw (some c) rest

/-- Model of `re.search(r'\b' + re.escape(keyword) + r'\b', text, re.IGNORECASE)`. -/
def kwSearch (text kw : String) : Bool := kwScanAux kw.data none text.data

/-- Model of `_extract_from_keywords`: the first category (in the declared
dictionary order) one of whose keywords matches. -/
def extractFromKeywords (text : String) : List (String × List String) → Option String
  | [] => none
  | (cat, kws) :: rest =>
    if kws.any (fun kw => kwSearch text kw) then some cat
    else extractFromKeywords text rest

/-- Model of `_extract_entities_from_keywords`: all matching categories.
Python collects them in a `set` and lists it in an unspecified order; the
model fixes the dictionary order (each category occurs at most once, so only
the order of the result is a modelling choice). -/
def extractEntitiesFromKeywords (text : String)
    (dict : List (String × List String)) : List String :=
  (dict.filter (fun p => p.2.any (fun kw => kwSearch text kw))).map Prod.fst

/-! ## Text preprocessing (`_preprocess_text`) -/

def alefNormChar (c : Char) : Char :=
  if c = 'أ' ∨ c = 'إ' ∨ c = 'آ' then 'ا' else c

def taaNormChar (c : Char) : Char := if c = 'ة' then 'ه' else c

/-- Model of `re.sub(r'\s+', ' ', text)`: each maximal whitespace run
becomes a single space.  The flag records whether the previous character was
whitespace. -/
def collapseWsAux : Bool → List Char → List Char
  | _, [] => []
  | prevWs, c :: rest =>
    if c.isWhitespace then
      if prevWs then collapseWsAux true rest
      else ' ' :: collapseWsAux true rest
    else c :: collapseWsAux false rest

/-- Model of `_preprocess_text` (understanding.py): lowercase, unify alef
variants, unify taa marbuta, collapse whitespace, strip. -/
def _preprocess_text (s : String) : String :=
  String.mk (pyStrip (collapseWsAux false
    (((s.data.map pyLowerChar).map alefNormChar).map taaNormChar)))

/-! ## Keyword dictionaries (understanding.py, insertion order preserved) -/

def OCCASIONS_KEYWORDS : List (String × List String) :=
  [("عيد ميلاد", ["عيد ميلاد", "عيد الميلاد", "ميلاد", "بيرث داي", "بيرثداي", "عيد ميلاده", "عيد ميلادها"]),
   ("عيد الأم", ["عيد الام", "عيد الأم", "عيد الامهات", "عيد ماما", "يوم الام"]),
   ("عيد الأب", ["عيد الاب", "عيد الأب", "عيد بابا", "يوم الاب"]),
   ("عيد الفطر", ["عيد الفطر", "فطر", "العيد الصغير"]),
   ("عيد الأضحى", ["عيد الاضحى", "عيد الأضحى", "اضحى", "العيد الكبير"]),
   ("رمضان", ["رمضان", "رمضان كريم"]),
   ("تخرج", ["تخرج", "تخرجت", "تخرجه", "تخرجها", "حفله تخرج", "حفلة تخرج"]),
   ("زواج", ["زواج", "عرس", "فرح", "جواز", "زفاف", "كتب كتاب"]),
   ("خطوبة", ["خطوبة", "خطوبه", "مخطوبه", "مخطوبة", "خطيبها", "خطيبته"]),
   ("نجاح", ["نجاح", "نجحت", "نجح"]),
   ("ترقية", ["ترقيه", "ترقية", "اترقيت", "اترقا"]),
   ("منزل جديد", ["بيت جديد", "منزل جديد", "شقه جديده", "شقة جديدة"]),
   ("شفاء", ["سلامتك", "شفا", "حمدلله ع السلامه", "الف سلامه"]),
   ("مولود جديد", ["سبوع", "مولود", "بيبي جديد", "ولاده"]),
   ("فالنتاين", ["فالنتاين", "فلانتين", "عيد الحب"]),
   ("بدون مناسبة", ["اي حاجه", "اي شي", "هديه وخلاص", "بدون مناسبه"])]

def RECIPIENT_TYPES_KEYWORDS : List (String × List String) :=
  [("بنت", ["بنت", "فتاه", "انثى", "انسة", "بنوته", "بنوتة", "للبنت", "لبنت", "لبنتي", "لبنتى"]),
   ("ولد", ["ولد", "شاب", "رجل", "رجالي", "لولد", "لشاب", "لابني", "لابنى"]),
   ("أم", ["ام", "أم", "والدتي", "ماما", "امي", "ست الحبايب"]),
   ("أب", ["اب", "أب", "والدي", "بابا", "ابويا", "ابي"]),
   ("زوجة", ["زوجه", "زوجة", "مراتي", "زوجتي", "المدام", "ام العيال"]),
   ("زوج", ["زوج", "زوجي", "جوزي", "ابو العيال"]),
   ("صديقة", ["صديقه", "صديقة", "صاحبه", "صاحبة", "صديقتي", "صاحبتي", "البيست فريند", "بيست فريند (بنت)"]),
   ("صديق", ["صديق", "صاحبي", "صديقي", "زميلي", "البيست فريند", "بيست فريند (ولد)"]),
   ("طفل", ["طفل", "طفله", "طفلة", "بيبي", "عيّل", "نونو", "اطفال", "للاطفال"]),
   ("أخ", ["اخ", "أخ", "اخويا", "اخي"]),
   ("أخت", ["اخت", "أخت", "اختي"]),
   ("جد", ["جد", "جدي", "جدو"]),
   ("جدة", ["جده", "جدة", "جدتي", "تيتا", "نانا"]),
   ("خطيب", ["خطيب", "خطيبي"]),
   ("خطيبة", ["خطيبه", "خطيبة", "خطيبتي"]),
   ("زميل عمل", ["زميل", "زميل عمل", "زميلي في الشغل"]),
   ("زميلة عمل", ["زميله", "زميلة عمل", "زميلتي في الشغل"]),
   ("مدير", ["مدير", "مديري", "المدير", "البوص"]),
   ("مديرة", ["مديره", "مديرتي", "المديره", "البوص"]),
   ("مدرس/ة", ["مدرس", "مدرسه", "معلم", "معلمه", "استاذ", "استاذه"])]

def RELATIONSHIP_KEYWORDS : List (String × List String) :=
  [("عائلة", ["عائلتي", "حد من العيله", "قريبي", "قريبتي"]),
   ("زميل", ["زميل", "زميلي", "زميله", "زميلتي", "زمايل"]),
   ("مدير", ["مدير", "مديري", "مديره", "مديرتي"]),
   ("خطيب/ة", ["خطيب", "خطيبه", "خطيبتي", "خطيبي"]),
   ("مقرب", ["حد قريب", "شخص عزيز"]),
   ("رسمي", ["حد معرفه سطحيه", "شخص رسمي"])]

def INTERESTS_KEYWORDS : List (String × List String) :=
  [("رياضة", ["رياضه", "رياضة", "رياضي", "رياضيه", "جيم", "كوره", "كرة قدم", "سباحه", "جري", "تمارين", "فتنس"]),
   ("موسيقى", ["موسيقى", "مزيكا", "اغاني", "غنا", "بيسمع اغاني", "موسيقي", "موسيقيه"]),
   ("أفلام/مسلسلات", ["افلام", "مسلسلات", "سينما", "بيتفرج", "نتفلكس", "مشاهده"]),
   ("قراءة/كتب", ["قرايه", "قراءة", "كتب", "روايات", "بيقرا", "قارئ", "قارئه"]),
   ("تكنولوجيا/ألعاب", ["تكنولوجيا", "جيمز", "العاب", "بلايستيشن", "كمبيوتر", "تقنيه", "مهتم بالتقنيه", "جيمنج"]),
   ("طبخ", ["طبخ", "مطبخ", "اكل", "وصفات", "بيطبخ", "بتطبخ"]),
   ("سفر", ["سفر", "رحلات", "بيسافر", "بتسافر", "ترحال"]),
   ("تصوير", ["تصوير", "صور", "كاميرا", "بيصور", "مصور", "مصوره"]),
   ("فنون/رسم", ["فنون", "رسم", "الوان", "بيرسم", "فنان", "فنانه", "اعمال يدويه"]),
   ("موضة/أزياء", ["موضه", "ازياء", "ملابس", "شيك", "انيقه", "انيق", "ستايل"]),
   ("عطور", ["عطور", "برفانات", "برفان", "ريحه حلوه", "بيرفيوم"]),
   ("مكياج/عناية بالبشرة", ["مكياج", "ميكب", "ميك اب", "عنايه بالبشره", "سكين كير", "ماسكات"]),
   ("نباتات/حدائق", ["زرع", "نباتات", "جنينه", "حديقه", "زراعه", "مهتم بالزرع"]),
   ("حيوانات أليفة", ["حيوانات اليفه", "قطط", "كلاب", "عنده قطه", "عنده كلب"]),
   ("سيارات", ["عربيات", "سيارات", "مهتم بالعربيات"]),
   ("قهوة/شاي", ["قهوه", "شاي", "مشروبات سخنه", "كيف قهوه"]),
   ("أعمال يدوية", ["اعمال يدويه", "هاند ميد", "كروشيه", "تريكو"]),
   ("ديكور", ["ديكور", "تزيين البيت", "اثاث"])]

def AGE_GROUP_KEYWORDS : List (String × List String) :=
  [("طفل", ["طفل", "طفله", "بيبي", "نونو", "صغير", "اقل من 10", "تحت 10"]),
   ("مراهق", ["مراهق", "مراهقه", "تينيجر", "13 سنه", "14 سنه", "15 سنه", "16 سنه", "17 سنه", "18 سنه", "في ثانوي"]),
   ("شاب/ة", ["شاب", "شابه", "عشرينات", "في الجامعه", "20+", "من 20 ل 30"]),
   ("متوسط العمر", ["ثلاثينات", "اربعينات", "30+", "40+", "متوسط العمر", "كبير شويه"]),
   ("كبير السن", ["كبير", "كبيره", "كبير في السن", "عجوز", "خمسينات", "ستينات", "50+", "60+", "فوق الخمسين", "فوق الستين", "متقدم في العمر"])]

def BUDGET_QUALITATIVE_KEYWORDS : List (String × List String) :=
  [("رخيص", ["رخيص", "رخيصه", "حاجه بسيطه", "مش غاليه", "في المتناول", "اقتصادي"]),
   ("متوسط", ["متوسط", "متوسطه", "معقول", "لا غالي ولا رخيص", "مش فارق السعر اوي"]),
   ("غالي", ["غالي", "غاليه", "فخم", "فخمه", "قيمه", "قيمة", "بريستيج"]),
   ("مفتوح", ["اي سعر", "مش مهم السعر", "ميزانيه مفتوحه"])]

def URGENCY_KEYWORDS : List (String × List String) :=
  [("عاجل", ["مستعجل", "ضروري", "بسرعه", "انهارده", "النهارده", "بكره", "في اقرب وقت"]),
   ("غير عاجل", ["براحتي", "مش مستعجل", "لسه بدري", "كمان اسبوع", "الشهر الجاي"])]

def GENDER_KEYWORDS : List (String × List String) :=
  [("ذكر", ["ذكر", "راجل", "ولد", "رجل", "رجالي"]),
   ("أنثى", ["انثى", "بنت", "ست", "حريمي", "نسائي"])]

/-! ## Hand-compiled regular expressions for age and budget

The scanners mirror the Python `re` semantics for the concrete patterns in
understanding.py: leftmost match, ordered alternation with backtracking,
greedy `\d+`/`\d{1,3}` (backtracking into a digit run is impossible because
everything that can follow starts with a non-digit), greedy `\s*` (with full
backtracking where a trailing `\b` depends on it). -/

def firstSome {α β : Type} (f : α → Option β) : List α → Option β
  | [] => none
  | a :: as =>
    match f a with
    | some b => some b
    | none => firstSome f as

/-- Consume a maximal ASCII-digit run: value, number of digits, rest. -/
def grabDigitsAux : List Char → Nat → Nat → Nat × Nat × List Char
  | c :: cs, acc, cnt =>
    if c.isDigit then grabDigitsAux cs (acc * 10 + (c.toNat - 48)) (cnt + 1)
    else (acc, cnt, c :: cs)
  | [], acc, cnt => (acc, cnt, [])

def grabDigits (cs : List Char) : Nat × Nat × List Char := grabDigitsAux cs 0 0

/-- Greedy `\s*`. -/
def skipWs (cs : List Char) : List Char := cs.dropWhile Char.isWhitespace

/-- Matches the tail `\s*(alt₁|alt₂|…)?\b` of the budget patterns after a
digit run (a digit is a word character, hence `lastWord`); existence over
the amount of whitespace consumed and the optional currency alternative. -/
def tailHere (curAlts : List String) (lastWord : Bool) (rest : List Char) : Bool :=
  boundaryB lastWord rest.head? ||
  curAlts.any (fun cur =>
    match matchLit cur.data rest with
    | some after => boundaryB (optIsWord cur.data.getLast?) after.head?
    | none => false)

def tailScanAux (curAlts : List String) : Bool → List Char → Bool
  | lastWord, [] => tailHere curAlts lastWord []
  | lastWord, c :: cs =>
    tailHere curAlts lastWord (c :: cs) ||
    (if c.isWhitespace then tailScanAux curAlts (isWordChar c) cs else false)

/-- Alternatives of `(جني?ه|ج|egp)` in backtracking order. -/
def CUR_SHORT : List String := ["جنيه", "جنه", "ج", "egp"]

/-- Alternatives of the long currency group of `BUDGET_REGEX_NUMBER`
(`جني?ه|ج|ريال|درهم|دينار|دولار|يورو|ل\.? ?م\.?|egp|sar|aed|kwd|usd|eur`),
with `ل\.? ?م\.?` expanded into its eight literal alternatives. -/
def CUR_LONG : List String :=
  ["جنيه", "جنه", "ج", "ريال", "درهم", "دينار", "دولار", "يورو",
   "ل. م.", "ل. م", "ل.م.", "ل.م", "ل م.", "ل م", "لم.", "لم",
   "egp", "sar", "aed", "kwd", "usd", "eur"]

/-! ### `AGE_REGEX = (\d{1,3})\s*(سنه|سنة|عام|عمر|عمره|عمرها|سن|سنها|سنه)\b` -/

def AGE_UNITS : List String :=
  ["سنه", "سنة", "عام", "عمر", "عمره", "عمرها", "سن", "سنها", "سنه"]

def tryAgeUnits (cs : List Char) : Bool :=
  AGE_UNITS.any (fun u =>
    match matchLit u.data cs with
    | some after => boundaryOpt u.data.getLast? after.head?
    | none => false)

def digitsVal (ds : List Char) : Nat :=
  ds.foldl (fun a c => a * 10 + (c.toNat - 48)) 0

/-- Try `\d{1,3}` with exactly `dlen` digits at this position. -/
def ageTryLen (cs : List Char) (dlen : Nat) : Option Nat :=
  let ds := cs.take dlen
  if ds.length = dlen && ds.all Char.isDigit then
    if tryAgeUnits (skipWs (cs.drop dlen)) then some (digitsVal ds) else none
  else none

/-- Greedy `\d{1,3}`: three digits first, then two, then one. -/
def ageTryHere (cs : List Char) : Option Nat :=
  match ageTryLen cs 3 with
  | some n => some n
  | none =>
    match ageTryLen cs 2 with
    | some n => some n
    | none => ageTryLen cs 1

def ageScan : List Char → Option Nat
  | [] => none
  | c :: rest =>
    match ageTryHere (c :: rest) with
    | some n => some n
    | none => ageScan rest

def ageRegexSearch (s : String) : Option Nat := ageScan s.data

/-! ### `BUDGET_REGEX_RANGE =
  (?:من|حوالي|في حدود)\s*(\d+)\s*(?:ل|الى|لحد)\s*(\d+)\s*(جني?ه|ج|egp)?\b` -/

def RANGE_PRE : List String := ["من", "حوالي", "في حدود"]

def RANGE_CONN : List String := ["ل", "الى", "لحد"]

def rangeTryHere (cs : List Char) : Option (Nat × Nat) :=
  firstSome (fun pre =>
    match matchLit pre.data cs with
    | none => none
    | some rest =>
      let (n1, cnt1, rest2) := grabDigits (skipWs rest)
      if cnt1 = 0 then none
      else
        firstSome (fun conn =>
          match matchLit conn.data (skipWs rest2) with
          | none => none
          | some rest4 =>
            let (n2, cnt2, rest6) := grabDigits (skipWs rest4)
            if cnt2 = 0 then none
            else if tailScanAux CUR_SHORT true rest6 then some (n1, n2)
            else none) RANGE_CONN) RANGE_PRE

def rangeScan : List Char → Option (Nat × Nat)
  | [] => none
  | c :: rest =>
    match rangeTryHere (c :: rest) with
    | some r => some r
    | none => rangeScan rest

def budgetRangeSearch (s : String) : Option (Nat × Nat) := rangeScan s.data

/-! ### `BUDGET_REGEX_APPROX = (?:حوالي|تقريبا|في حدود)\s*(\d+)\s*(جني?ه|ج|egp)?\b` -/

def APPROX_PRE : List String := ["حوالي", "تقريبا", "في حدود"]

def approxTryHere (cs : List Char) : Option Nat :=
  firstSome (fun pre =>
    match matchLit pre.data cs with
    | none => none
    | some rest =>
      let (n, cnt, rest2) := grabDigits (skipWs rest)
      if cnt = 0 then none
      else if tailScanAux CUR_SHORT true rest2 then some n
      else none) APPROX_PRE

def approxScan : List Char → Option Nat
  | [] => none
  | c :: rest =>
    match approxTryHere (c :: rest) with
    | some n => some n
    | none => approxScan rest

def budgetApproxSearch (s : String) : Option Nat := approxScan s.data

/-! ### `BUDGET_REGEX_NUMBER = (\d+)\s*(…currencies…)?\b` -/

def numberTryHere (cs : List Char) : Option Nat :=
  let (n, cnt, rest) := grabDigits cs
  if cnt = 0 then none
  else if tailScanAux CUR_LONG true rest then some n
  else none

def numberScan : List Char → Option Nat
  | [] => none
  | c :: rest =>
    match numberTryHere (c :: rest) with
    | some n => some n
    | none => numberScan rest

def budgetNumberSearch (s : String) : Option Nat := numberScan s.data

/-! ## Structured extraction (understanding.py) -/

/-- Python truthiness of an optional integer (0 and absent are falsy). -/
def pyTruthyNat : Option Nat → Bool
  | none => false
  | some n => n != 0

/-- Python truthiness of an optional string (empty and absent are falsy). -/
def pyTruthyStr : Option String → Bool
  | none => false
  | some s => s != ""

/-- The `age` sub-dictionary; `none` fields are the explicit `None` values. -/
structure AgeInfo where
  numerical : Option Nat
  group : Option String
deriving DecidableEq, Repr

/-- Model of `_extract_age`.  The result is `none` exactly when the Python
function returns the empty dict `{}` (the `if age_info["numerical"] or
age_info["group"]` truthiness test). -/
def _extract_age (text : String) : Option AgeInfo :=
  let num := ageRegexSearch text
  let grp0 := extractFromKeywords text AGE_GROUP_KEYWORDS
  let grp :=
    match num, grp0 with
    | some n, none =>
      if n ≤ 12 then some "طفل"
      else if 13 ≤ n ∧ n ≤ 19 then some "مراهق"
      else if 20 ≤ n ∧ n ≤ 29 then some "شاب/ة"
      else if 30 ≤ n ∧ n ≤ 49 then some "متوسط العمر"
      else some "كبير السن"
    | _, g => g
  if pyTruthyNat num || pyTruthyStr grp then some ⟨num, grp⟩ else none

/-- The `budget` sub-dictionary. -/
structure BudgetInfo where
  bmin : Option Nat
  bmax : Option Nat
  approx : Option Nat
  qualitative : Option String
deriving DecidableEq, Repr

/-- Model of `_extract_budget`.  A successful range match returns
immediately (`return budget_info  # Prioritize range`); otherwise the
approximate pattern, then a bare number, then the qualitative keywords are
consulted, and the `any(budget_info.values())` truthiness test decides
between the filled record and the empty dict (modelled as `none`). -/
def _extract_budget (text : String) : Option BudgetInfo :=
  match budgetRangeSearch text with
  | some (a, b) => some ⟨some a, some b, none, none⟩
  | none =>
    let approx :=
      match budgetApproxSearch text with
      | some n => some n
      | none => budgetNumberSearch text
    let qual := extractFromKeywords text BUDGET_QUALITATIVE_KEYWORDS
    if pyTruthyNat approx || pyTruthyStr qual then
      some ⟨none, none, approx, qual⟩
    else none

/-- Recipient types that `_infer_gender` maps to female. -/
def FEMALE_TYPES : List String :=
  ["بنت", "أم", "زوجة", "صديقة", "أخت", "جدة", "خطيبة", "زميلة عمل",
   "مديرة", "طفله", "مدرسه", "أستاذة", "قارئه", "موسيقيه", "فنانه", "مصوره"]

/-- Recipient types that `_infer_gender` maps to male. -/
def MALE_TYPES : List String :=
  ["ولد", "أب", "زوج", "صديق", "أخ", "جد", "خطيب", "زميل عمل", "مدير",
   "طفل", "مدرس", "أستاذ", "قارئ", "موسيقي", "فنان", "مصور"]

/-- Model of `_infer_gender`. -/
def _infer_gender (recipient_type relationship : Option String) : Option String :=
  let fromRel : Option String :=
    match relationship with
    | some r =>
      if r = "خطيبة" then some "أنثى"
      else if r = "خطيب" then some "ذكر"
      else none
    | none => none
  match recipient_type with
  | some t =>
    if t ∈ FEMALE_TYPES then some "أنثى"
    else if t ∈ MALE_TYPES then some "ذكر"
    else fromRel
  | none => fromRel

/-- The context dictionary returned by `extract_context`; absent values are
the explicit `None`/`{}`/`[]` defaults of the source. -/
structure ExtractedContext where
  occasion : Option String
  recipient_type : Option String
  relationship : Option String
  age : Option AgeInfo
  interests : List String
  budget : Option BudgetInfo
  urgency : Option String
  gender : Option String
  other_details : String
deriving DecidableEq, Repr

/-- Model of `extract_context` (understanding.py). -/
def extract_context (question : String) : ExtractedContext :=
  let q := _preprocess_text question
  let occasion := extractFromKeywords q OCCASIONS_KEYWORDS
  let rt := extractFromKeywords q RECIPIENT_TYPES_KEYWORDS
  let rel := extractFromKeywords q RELATIONSHIP_KEYWORDS
  let urg := extractFromKeywords q URGENCY_KEYWORDS
  let genExplicit := extractFromKeywords q GENDER_KEYWORDS
  let age := _extract_age q
  let budget := _extract_budget q
  let interests := extractEntitiesFromKeywords q INTERESTS_KEYWORDS
  let gender :=
    match genExplicit with
    | some g => some g
    | none => _infer_gender rt rel
  ⟨occasion, rt, rel, age, interests, budget, urg, gender, q⟩

/-! ## logic.py: weighted field joining (`join_fields`) -/

/-- A product field value: the catalog stores either a scalar string or a
list of strings in the content fields that admit both shapes. -/
inductive FieldVal where
  | str (s : String)
  | list (l : List String)
deriving DecidableEq, Repr

/-- Python falsiness of a field value (`if not val: continue`). -/
def fieldFalsy : FieldVal → Bool
  | .str s => s == ""
  | .list l => l.isEmpty

/-- A catalog item.  Per the data model, `tags`, `occasion`, `season`,
`seasons` and `interests` are scalar-or-list; the remaining content fields
are scalars.  `price` is numeric. -/
structure Product where
  name : String
  description : String
  tags : FieldVal
  occasion : FieldVal
  season : FieldVal
  seasons : FieldVal
  category : String
  subCategory : String
  brand : String
  targetGender : String
  ageGroup : String
  interests : FieldVal
  price : Rat
  id : String
  image : String
  url : String
deriving DecidableEq, Repr

/-- `CONTENT_FIELDS` from logic.py. -/
def CONTENT_FIELDS : List String :=
  ["name", "description", "tags", "occasion", "season",
   "seasons", "category", "subCategory", "brand",
   "targetGender", "ageGroup", "interests"]

/-- `FIELD_WEIGHTS` from logic.py (float weights as rationals). -/
def FIELD_WEIGHTS : List (String × Rat) :=
  [("tags", 1.5), ("occasion", 2.0), ("category", 1.3), ("subCategory", 1.2),
   ("targetGender", 1.8), ("ageGroup", 1.5), ("interests", 1.7),
   ("description", 1.0), ("name", 0.8), ("season", 1.3), ("seasons", 1.3),
   ("brand", 0.7)]

/-- `prod.get(field, '')` over the fixed field names. -/
def getField (p : Product) (f : String) : FieldVal :=
  if f = "name" then .str p.name
  else if f = "description" then .str p.description
  else if f = "tags" then p.tags
  else if f = "occasion" then p.occasion
  else if f = "season" then p.season
  else if f = "seasons" then p.seasons
  else if f = "category" then .str p.category
  else if f = "subCategory" then .str p.subCategory
  else if f = "brand" then .str p.brand
  else if f = "targetGender" then .str p.targetGender
  else if f = "ageGroup" then .str p.ageGroup
  else if f = "interests" then p.interests
  else .str ""

/-- `weight = 1`, overridden by `int(field_weights[field])` when the field is
in the weight table; `int` truncates, which is the floor for these
non-negative weights. -/
def intWeight (weights : List (String × Rat)) (f : String) : Nat :=
  match alookup weights f with
  | some w => w.floor.toNat
  | none => 1

/-- The elements a field contributes once: `[str(v) for v in val if v]` for
lists, the single value for scalars. -/
def fieldVals : FieldVal → List String
  | .str s => [s]
  | .list l => l.filter (fun v => v != "")

/-- One field's contribution to the joined text: nothing if the value is
falsy, otherwise the field values repeated `weight` times. -/
def fieldParts (p : Product) (weights : List (String × Rat)) (f : String) :
    List String :=
  let val := getField p f
  if fieldFalsy val then []
  else (List.replicate (intWeight weights f) (fieldVals val)).flatten

def joinPartsList (p : Product) (fields : List String)
    (weights : List (String × Rat)) : List String :=
  fields.flatMap (fieldParts p weights)

/-- Model of `join_fields` (logic.py): `' '.join(result)`. -/
def join_fields (p : Product) (fields : List String)
    (weights : List (String × Rat)) : String :=
  String.intercalate " " (joinPartsList p fields weights)

/-! ## logic.py: `is_meaningful_content` -/

/-- Number of whitespace-separated words (`len(text.split())`). -/
def countWordsAux : Bool → List Char → Nat
  | _, [] => 0
  | inWord, c :: rest =>
    if c.isWhitespace then countWordsAux false rest
    else (if inWord then 0 else 1) + countWordsAux true rest

/-- Model of `re.search(r'(.)\1{3,}', text)`: four or more equal consecutive
characters (the scanner treats every character uniformly; the inputs contain
no newlines, on which Python `.` would differ). -/
def hasRun4 : List Char → Bool
  | a :: b :: c :: d :: rest =>
    (a == b && b == c && c == d) || hasRun4 (b :: c :: d :: rest)
  | _ => false

/-- Model of `re.match(r'^[\d\s\.\-\,]+$', text)` on a nonempty text. -/
def isNumericJunk (cs : List Char) : Bool :=
  !cs.isEmpty &&
    cs.all (fun c => c.isDigit || c.isWhitespace || c = '.' || c = '-' || c = ',')

/-- Model of `is_meaningful_content` (logic.py). -/
def is_meaningful_content (text : String) : Bool :=
  let cs := text.data
  if cs.isEmpty || (pyStrip cs).length < 3 then false
  else if countWordsAux false cs < 2 then false
  else if hasRun4 cs then false
  else if isNumericJunk cs then false
  else true

/-! ## logic.py: `extract_user_preferences`

These regexes carry no `\b` anchors: they are plain (case-insensitive)
substring alternations.  Character classes such as `زوج[تة]ي` and optional
suffixes such as `رخيص[ةه]?` are expanded into their literal alternatives
(order is irrelevant to the boolean result of `re.search`). -/

/-- Case-sensitive literal prefix match (Python `in` on strings). -/
def matchExact : List Char → List Char → Option (List Char)
  | [], rest => some rest
  | _ :: _, [] => none
  | k :: ks, c :: cs => if c = k then matchExact ks cs else none

/-- Case-insensitive substring search (one alternative of a boundary-free
`re.search`). -/
def subScan (pat : List Char) : List Char → Bool
  | [] => pat.isEmpty
  | c :: rest => (matchLit pat (c :: rest)).isSome || subScan pat rest

/-- Case-sensitive substring test (Python `needle in haystack`). -/
def subScanCS (pat : List Char) : List Char → Bool
  | [] => pat.isEmpty
  | c :: rest => (matchExact pat (c :: rest)).isSome || subScanCS pat rest

def anySub (q : String) (alts : List String) : Bool :=
  alts.any (fun a => subScan a.data q.data)

def isSubstrOf (needle hay : String) : Bool := subScanCS needle.data hay.data

/-- `re.search(r'(\d+)', question)`: the value of the first digit run. -/
def firstNumberScan : List Char → Option Nat
  | [] => none
  | c :: rest =>
    if c.isDigit then some (grabDigits (c :: rest)).1 else firstNumberScan rest

def firstNumber (s : String) : Option Nat := firstNumberScan s.data

def FEM_PATTERN : List String :=
  ["بنت", "ست", "زوجتي", "زوجةي", "أم", "أخت", "صاحبت", "صديقت", "خطيبت"]

def MALE_PATTERN : List String :=
  ["ولد", "راجل", "زوجي", "أب", "أخ", "صاحب", "صديق", "خطيب"]

def CHILD_PATTERN : List String := ["طفل", "بيبي", "رضيع", "أطفال"]

def TEEN_PATTERN : List String := ["مراهق", "تين", "المدرسة", "المدرسه"]

def YOUNG_PATTERN : List String :=
  ["شاب", "ة الجامعة", "ة الجامعه", "ه الجامعة", "ه الجامعه", "تخرج"]

def ELDER_PATTERN : List String := ["كبير", "مسن", "عجوز"]

/-- `occasions_mapping` from `extract_user_preferences` (patterns expanded,
insertion order preserved; first matching pattern wins via `break`). -/
def UP_OCCASIONS : List (List String × String) :=
  [(["عيد الأم"], "mothers_day"),
   (["عيد ميلاد"], "birthday"),
   (["زفاف", "فرح", "خطوبة", "خطوبه"], "wedding"),
   (["رمضان"], "ramadan"),
   (["العيد", "عيد الفطر", "عيد الأضحى"], "eid"),
   (["تخرج"], "graduation"),
   (["فلانتين", "الحب"], "valentine"),
   (["كريسماس"], "christmas"),
   (["السنة الجديدة", "السنة الجديده", "السنه الجديدة", "السنه الجديده"],
    "new_year")]

/-- `interests_mapping` from `extract_user_preferences` (all matching
patterns contribute, in insertion order). -/
def UP_INTERESTS : List (List String × String) :=
  [(["عطر", "عطور", "ريحة", "perfume"], "perfumes"),
   (["محفظة", "محفظه", "wallet", "فلوس"], "wallets"),
   (["ساعة", "ساعات", "watch"], "watches"),
   (["نظارة", "نضارة", "شمس"], "sunglasses"),
   (["اكسسوار", "مجوهرات", "خاتم", "سلسلة", "حلقة", "bracelet"], "accessories"),
   (["شنطة", "شنط", "bag", "شنط يد"], "bags"),
   (["أطفال", "لعبة", "لعب", "طفل", "دبدوب", "دمية"], "kids"),
   (["هدية", "هدايا", "مناسبة", "مفاجأة"], "gifts"),
   (["رجالي", "راجل", "رجال"], "men"),
   (["حريمي", "بنات", "نسائي", "حريم"], "women")]

def BUDGET_PATTERN : List String :=
  ["رخيصة", "رخيصه", "رخيص", "مش غالي", "بسعر معقول",
   "اقتصادية", "اقتصاديه", "اقتصادي"]

def PREMIUM_PATTERN : List String :=
  ["غالية", "غاليه", "غالي", "فخمة", "فخمه", "فخم", "هاي كلاس",
   "راقية", "راقيه", "راقي"]

/-- The preference dictionary of `extract_user_preferences`; a `none` field
models an absent key. -/
structure Preferences where
  gender : Option String
  age_group : Option String
  occasion : Option String
  interests : Option (List String)
  price_range : Option String
deriving DecidableEq, Repr

/-- Python truthiness of the preference dict (`if not preferences`). -/
def prefsEmpty (p : Preferences) : Bool :=
  p.gender.isNone && p.age_group.isNone && p.occasion.isNone &&
    p.interests.isNone && p.price_range.isNone

/-- Model of `extract_user_preferences` (logic.py). -/
def extract_user_preferences (question : String) : Preferences :=
  let gender :=
    if anySub question FEM_PATTERN then some "female"
    else if anySub question MALE_PATTERN then some "male"
    else none
  let ageNum := firstNumber question
  let age_group :=
    if anySub question CHILD_PATTERN then some "children"
    else if (match ageNum with | some n => decide (n < 14) | none => false) then
      some "children"
    else if anySub question TEEN_PATTERN then some "teen"
    else if anySub question YOUNG_PATTERN then some "young_adult"
    else if anySub question ELDER_PATTERN then some "elderly"
    else none
  let occasion :=
    firstSome (fun pr => if anySub question pr.1 then some pr.2 else none)
      UP_OCCASIONS
  let ints := (UP_INTERESTS.filter (fun pr => anySub question pr.1)).map Prod.snd
  let interests := if ints.isEmpty then none else some ints
  let price_range :=
    if anySub question BUDGET_PATTERN then some "budget"
    else if anySub question PREMIUM_PATTERN then some "premium"
    else none
  ⟨gender, age_group, occasion, interests, price_range⟩

/-! ## logic.py: session-preference merge (suggest_products_logic) -/

/-- First-occurrence deduplication: the model of Python `list(set(xs))`
(whose iteration order is unspecified; see the header). -/
def dedupAux (seen : List String) : List String → List String
  | [] => []
  | x :: xs => if x ∈ seen then dedupAux seen xs else x :: dedupAux (x :: seen) xs

def pySetList (l : List String) : List String := dedupAux [] l

/-- Model of the merge loop of `suggest_products_logic`: for every key of the
session preferences, copy it if the fresh record lacks it; union (via
`list(set(fresh + session))`) when both values are lists; otherwise the fresh
value wins. -/
def mergePreferences (fresh sess : Preferences) : Preferences :=
  { gender := match fresh.gender with | some g => some g | none => sess.gender
    age_group :=
      match fresh.age_group with | some a => some a | none => sess.age_group
    occasion :=
      match fresh.occasion with | some o => some o | none => sess.occasion
    interests :=
      match fresh.interests, sess.interests with
      | some a, some b => some (pySetList (a ++ b))
      | some a, none => some a
      | none, b => b
    price_range :=
      match fresh.price_range with
      | some pr => some pr
      | none => sess.price_range }

/-! ## logic.py: scored candidates and the preference filter -/

def lowerStr (s : String) : String := String.mk (s.data.map pyLowerChar)

def stripStr (s : String) : String := String.mk (pyStrip s.data)

/-- The per-product result dictionary built in `suggest_products_logic`,
with the optional `preference_score` added by the preference filter.
(`re_rank_products` also mutates a `final_score` key; the model keeps that
score alongside the candidate during ranking instead.) -/
structure Candidate where
  id : String
  name : String
  description : String
  price : Rat
  image : String
  score : Rat
  tags : FieldVal
  occasion : FieldVal
  season : FieldVal
  seasons : FieldVal
  category : String
  subCategory : String
  brand : String
  targetGender : String
  ageGroup : String
  url : String
  preference_score : Option Nat
deriving DecidableEq, Repr

def mkCandidate (p : Product) (sim : Rat) : Candidate :=
  ⟨p.id, p.name, p.description, p.price, p.image, sim, p.tags, p.occasion,
    p.season, p.seasons, p.category, p.subCategory, p.brand, p.targetGender,
    p.ageGroup, p.url, none⟩

/-- The candidate-building loop of `suggest_products_logic`: join and strip
the weighted text, drop non-meaningful products, embed (`simf p = none`
models a per-item embedding exception, which skips the item), and drop
similarities below the 0.15 floor.  `simf` is the black-box embedding
similarity `1 - cosine(question_embedding, prod_embedding)`. -/
def candidateStage (simf : Product → Option Rat) (products : List Product) :
    List Candidate :=
  products.filterMap (fun p =>
    let fullText := stripStr (join_fields p CONTENT_FIELDS FIELD_WEIGHTS)
    if !is_meaningful_content fullText then none
    else
      match simf p with
      | none => none
      | some sim =>
        if sim < (0.15 : Rat) then none else some (mkCandidate p sim))

/-- Gender step of the preference filter: +3 on a match or unisex, outright
exclusion when the item explicitly targets another gender. -/
def genderStep (prefs : Preferences) (c : Candidate) (score : Nat) : Option Nat :=
  match prefs.gender with
  | none => some score
  | some g =>
    let tg := lowerStr c.targetGender
    if tg = g || tg = "unisex" then some (score + 3)
    else if tg ≠ "" && tg ≠ "unisex" then none
    else some score

/-- Age-group step: hard children filter (+3), else +2 on a substring match. -/
def ageStep (prefs : Preferences) (c : Candidate) (score : Nat) : Option Nat :=
  match prefs.age_group with
  | none => some score
  | some ag =>
    if c.ageGroup ≠ "" then
      if ag = "children" then
        if isSubstrOf "children" (lowerStr c.ageGroup) ||
            isSubstrOf "kids" (lowerStr c.ageGroup) then some (score + 3)
        else none
      else if isSubstrOf ag (lowerStr c.ageGroup) then some (score + 2)
      else some score
    else some score

/-- The list-or-scalar lowering used for `occasion` and `tags`. -/
def strOrListLower : FieldVal → List String
  | .list l => l.map lowerStr
  | .str s => if s ≠ "" then [lowerStr s] else []

def occasionStep (prefs : Preferences) (c : Candidate) (score : Nat) : Nat :=
  match prefs.occasion with
  | none => score
  | some oc =>
    if (strOrListLower c.occasion).contains oc then score + 4 else score

def interestsStep (prefs : Preferences) (c : Candidate) (score : Nat) : Nat :=
  match prefs.interests with
  | none => score
  | some ints =>
    let tags := strOrListLower c.tags
    score + 2 * (ints.filter (fun i => tags.contains i)).length

def priceStep (prefs : Preferences) (c : Candidate) (score : Nat) : Nat :=
  match prefs.price_range with
  | none => score
  | some pr =>
    if pr = "budget" && c.price ≤ 300 then score + 2
    else if pr = "premium" && 500 ≤ c.price then score + 2
    else score

/-- The `if score > 0` tail of the filter loop: only candidates with a
positive preference score are kept, annotated with it. -/
def keepIfScored (c : Candidate) (s5 : Nat) : Option Candidate :=
  if s5 > 0 then some { c with preference_score := some s5 } else none

/-- The loop body of `filter_products_by_preferences` for one candidate:
`none` models both hard exclusions (`continue`) and a zero preference score;
otherwise the copied candidate carries its `preference_score`. -/
def candPrefResult (prefs : Preferences) (c : Candidate) : Option Candidate :=
  match genderStep prefs c 0 with
  | none => none
  | some s1 =>
    match ageStep prefs c s1 with
    | none => none
    | some s2 =>
      keepIfScored c
        (priceStep prefs c (interestsStep prefs c (occasionStep prefs c s2)))

/-- Model of `filter_products_by_preferences` (logic.py). -/
def filter_products_by_preferences (products : List Candidate)
    (preferences : Preferences) : List Candidate :=
  if prefsEmpty preferences then products
  else
    let filtered := products.filterMap (candPrefResult preferences)
    if filtered.isEmpty then products else filtered

/-! ## logic.py: seasonal data and re-ranking -/

/-- Model of `get_current_season`; `month` stands for `datetime.now().month`. -/
def get_current_season (month : Nat) : String :=
  if 3 ≤ month ∧ month ≤ 5 then "spring"
  else if 6 ≤ month ∧ month ≤ 8 then "summer"
  else if 9 ≤ month ∧ month ≤ 11 then "fall"
  else "winter"

/-- Model of `get_upcoming_occasions`; `month`/`year` stand for the server
date.  (`"mother\x27s day"` is the source literal with its apostrophe.) -/
def get_upcoming_occasions (month year : Nat) : List String :=
  if month = 1 then ["new year"]
  else if month = 2 then ["valentine"]
  else if month = 3 then ["mother\x27s day"]
  else if month = 4 then (if year % 3 = 0 then ["ramadan", "eid"] else [])
  else if month = 12 then ["christmas"]
  else []

/-- The seasons of a product as collected by `re_rank_products`: a list-typed
`seasons` wins (even empty); otherwise a truthy `season` is used. -/
def productSeasons (c : Candidate) : List String :=
  match c.seasons with
  | .list l => l.map normalize_season_or_occasion
  | .str _ =>
    match c.season with
    | .list l2 =>
      if l2.isEmpty then [] else l2.map normalize_season_or_occasion
    | .str s2 =>
      if s2 ≠ "" then [normalize_season_or_occasion s2] else []

def productOccasions (c : Candidate) : List String :=
  match c.occasion with
  | .list l => l.map normalize_season_or_occasion
  | .str s => if s ≠ "" then [normalize_season_or_occasion s] else []

/-- The `final_score` computed by `re_rank_products` for one candidate. -/
def finalScore (prefs : Preferences) (month year : Nat) (c : Candidate) : Rat :=
  let base := c.score * (0.7 : Rat)
  let prefPart : Rat :=
    if !prefsEmpty prefs then
      match c.preference_score with
      | some ps => min ((ps : Rat) / 10) 1 * (0.3 : Rat)
      | none => 0
    else 0
  let cur := normalize_season_or_occasion (get_current_season month)
  let seasonBoost : Rat := if (productSeasons c).contains cur then 0.1 else 0
  let upcoming := (get_upcoming_occasions month year).map normalize_season_or_occasion
  let occBoost : Rat :=
    if upcoming.any (fun o => (productOccasions c).contains o) then 0.15 else 0
  base + prefPart + seasonBoost + occBoost

/-- Stable descending insertion: `x` is placed before the first element
whose key is ≤ its own, so earlier elements precede later ones on ties. -/
def insertDesc {α : Type} (key : α → Rat) (x : α) : List α → List α
  | [] => [x]
  | y :: ys =>
    if key y ≤ key x then x :: y :: ys else y :: insertDesc key x ys

/-- Stable descending sort by key.  Python `sorted(..., reverse=True)` is a
stable sort; every stable sort of the same key order produces the same
list, so this executable insertion sort is extensionally the source's
`sorted(products, key=lambda x: x.get('final_score', 0), reverse=True)`. -/
def sortDesc {α : Type} (key : α → Rat) : List α → List α
  | [] => []
  | x :: xs => insertDesc key x (sortDesc key xs)

/-- Model of `re_rank_products`: every candidate is annotated with its final
score (`prod['final_score'] = final_score`), then the list is sorted
descending by that score. -/
def re_rank_products (products : List Candidate) (prefs : Preferences)
    (month year : Nat) : List Candidate :=
  (sortDesc Prod.snd
    (products.map (fun c => (c, finalScore prefs month year c)))).map Prod.fst

/-! ## logic.py: `top_k` coercion and list slicing -/

/-- The dynamically-typed `top_k` argument. -/
inductive PyVal where
  | pint (i : Int)
  | pfloat (q : Rat)
  | pstr (s : String)
  | pslice (start stop step : Option Int)
  | pnone
  | plist (xs : List Int)
deriving DecidableEq, Repr

def allDigitsVal (cs : List Char) : Option Nat :=
  if !cs.isEmpty && cs.all Char.isDigit then some (digitsVal cs) else none

/-- Python `int(s)` on a string: optional surrounding whitespace, optional
sign, a nonempty digit run; anything else raises (`none`). -/
def pyIntOfString (s : String) : Option Int :=
  match pyStrip s.data with
  | '+' :: rest => (allDigitsVal rest).map (fun n => (n : Int))
  | '-' :: rest => (allDigitsVal rest).map (fun n => -(n : Int))
  | rest => (allDigitsVal rest).map (fun n => (n : Int))

/-- Python `int(f)` on a float: truncation toward zero. -/
def pyIntOfFloat (q : Rat) : Int := if 0 ≤ q then q.floor else q.ceil

/-- Model of the `top_k` coercion prologue of `suggest_products_logic`:
slices are replaced by 5 explicitly; other values go through `int(...)`,
and any exception falls back to 5. -/
def coerce_top_k : PyVal → Int
  | .pslice _ _ _ => 5
  | .pint i => i
  | .pfloat q => pyIntOfFloat q
  | .pstr s =>
    match pyIntOfString s with
    | some i => i
    | none => 5
  | .pnone => 5
  | .plist _ => 5

/-- Python `l[:k]` for an integer `k`, including negative `k`. -/
def pySliceTake {α : Type} (k : Int) (l : List α) : List α :=
  if 0 ≤ k then l.take k.toNat
  else l.take (l.length - min l.length (-k).toNat)

/-- The candidate portion of `suggest_products_logic` after the embeddings:
candidate building, preference filter, quality filter, re-ranking and top-k
truncation, in source order. -/
def suggestRanking (simf : Product → Option Rat) (products : List Product)
    (prefs : Preferences) (month year : Nat) (top_k : Int) : List Candidate :=
  let results := candidateStage simf products
  let filtered := filter_products_by_preferences results prefs
  let quality := filtered.filter (fun r =>
    is_meaningful_content (stripStr r.name) &&
      is_meaningful_content (stripStr r.description))
  let ranked := re_rank_products quality prefs month year
  pySliceTake top_k ranked

/-! ## session.py: the in-memory session store and the request side effect

The session payload is a dictionary; the shapes that occur in this code base
are modelled by `SessionData`, whose `Option` fields mark key presence.
`update_nested_dict` merges dictionary-valued entries key-by-key (here,
`user_preferences`) and overwrites everything else. -/

structure SessionData where
  created_at : Option Nat
  last_accessed : Option Nat
  user_id : Option (Option String)
  question_history : Option (List String)
  user_preferences : Option Preferences
deriving DecidableEq, Repr

/-- The empty dictionary `{}` (every key absent). -/
def emptySessionData : SessionData := ⟨none, none, none, none, none⟩

/-- Python falsiness of a session dict (`if not session_data`): `None` is
handled by the surrounding `Option`, the empty dict by this test. -/
def sessionDataEmpty (d : SessionData) : Bool :=
  d.created_at.isNone && d.last_accessed.isNone && d.user_id.isNone &&
    d.question_history.isNone && d.user_preferences.isNone

/-- `update_nested_dict` restricted to the `Preferences` dictionary: keys of
the update overwrite, keys absent from the update survive (no nested dicts
inside). -/
def prefUpdateNested (original updates : Preferences) : Preferences :=
  { gender := match updates.gender with | some g => some g | none => original.gender
    age_group :=
      match updates.age_group with | some a => some a | none => original.age_group
    occasion :=
      match updates.occasion with | some o => some o | none => original.occasion
    interests :=
      match updates.interests with | some i => some i | none => original.interests
    price_range :=
      match updates.price_range with
      | some p => some p
      | none => original.price_range }

/-- `update_nested_dict(session_data, data)`: `user_preferences` is the one
dictionary-valued key (merged recursively); the other keys are overwritten
when present in the update. -/
def update_nested_session (original updates : SessionData) : SessionData :=
  { created_at :=
      match updates.created_at with | some v => some v | none => original.created_at
    last_accessed :=
      match updates.last_accessed with
      | some v => some v
      | none => original.last_accessed
    user_id :=
      match updates.user_id with | some v => some v | none => original.user_id
    question_history :=
      match updates.question_history with
      | some v => some v
      | none => original.question_history
    user_preferences :=
      match original.user_preferences, updates.user_preferences with
      | some o, some n => some (prefUpdateNested o n)
      | _, some n => some n
      | o, none => o }

/-- `InMemorySessionStorage._sessions`, a dict keyed by session id. -/
def SessionStore : Type := List (String × SessionData)

/-- `InMemorySessionStorage.get`. -/
def storageGet (store : SessionStore) (sid : String) : Option SessionData :=
  alookup store sid

/-- `InMemorySessionStorage.save`: dict assignment. -/
def storageSave : SessionStore → String → SessionData → SessionStore
  | [], sid, d => [(sid, d)]
  | (k, v) :: rest, sid, d =>
    if sid = k then (sid, d) :: rest else (k, v) :: storageSave rest sid d

/-- Model of `SessionManager.update_session`: look the session up, refuse
falsy results (`if not session_data: return False`), otherwise merge the
update recursively, refresh `last_accessed` (`now` models `time.time()`),
and save.  Returns the success flag together with the resulting store. -/
def update_session (store : SessionStore) (sid : String) (data : SessionData)
    (now : Nat) : Bool × SessionStore :=
  match storageGet store sid with
  | none => (false, store)
  | some old =>
    if sessionDataEmpty old then (false, store)
    else
      let merged := update_nested_session old data
      let merged := { merged with last_accessed := some now }
      (true, storageSave store sid merged)

/-- Model of `SessionManager.get_session`: a truthy result has its
`last_accessed` refreshed and saved back. -/
def get_session (store : SessionStore) (sid : String) (now : Nat) :
    Option SessionData × SessionStore :=
  match storageGet store sid with
  | some d =>
    if sessionDataEmpty d then (none, store)
    else
      let d2 := { d with last_accessed := some now }
      (some d2, storageSave store sid d2)
  | none => (none, store)

/-- The session-handling side effect of `suggest_products_logic` (lines
484-516): the function constructs a fresh `SessionManager()` per request,
whose default backend is a brand-new empty `InMemorySessionStorage` - so the
store this request reads and writes starts empty, whatever happened before.
Returns the store as left behind by the request together with the merged
preference record used for scoring. -/
def pipelineSessionStep (session_id : Option String) (question : String)
    (now : Nat) : SessionStore × Preferences :=
  let store0 : SessionStore := []
  match session_id with
  | none => (store0, extract_user_preferences question)
  | some sid =>
    let (ctx, store1) := get_session store0 sid now
    let ctx0 : SessionData :=
      match ctx with
      | some c => c
      | none => emptySessionData
    let history0 := (ctx0.question_history.getD []) ++ [question]
    let history :=
      if history0.length > 5 then history0.drop (history0.length - 5)
      else history0
    let ctx1 := { ctx0 with question_history := some history }
    let fresh := extract_user_preferences question
    let prefs :=
      match ctx1.user_preferences with
      | some sess => if prefsEmpty sess then fresh else mergePreferences fresh sess
      | none => fresh
    let ctx2 := { ctx1 with user_preferences := some prefs }
    let res := update_session store1 sid ctx2 now
    (res.2, prefs)

/-! ## Sample data used by witnesses -/

def emptyPreferences : Preferences := ⟨none, none, none, none, none⟩

def sampleProduct : Product :=
  ⟨"Nice Gift Box", "A lovely gift for your friends", .list ["gifts"],
    .list ["birthday"], .list [], .list [], "gifts", "boxes", "cadoz",
    "unisex", "all", .list [], 100, "p1", "", ""⟩

def sampleCandidate : Candidate := mkCandidate sampleProduct (mkRat 1 2)

/-! ## Claim theorems -/

/-- C9: `update_session` addressed to a session id that is not in the store
returns `False` and leaves the store completely unchanged. -/
theorem c9_update_session_unknown_id (store : SessionStore) (sid : String)
    (d : SessionData) (now : Nat) (h : storageGet store sid = none) :
    update_session store sid d now = (false, store) := by
  unfold update_session
  rw [h]

theorem c9_witness :
    storageGet ([] : SessionStore) "s1" = none ∧
      update_session ([] : SessionStore) "s1" emptySessionData 7 =
        (false, ([] : SessionStore)) :=
  ⟨rfl, c9_update_session_unknown_id ([] : SessionStore) "s1" emptySessionData 7 rfl⟩

/-- C2 (code bug): after the session-handling part of
`suggest_products_logic` runs for a request carrying any session id, the
session store holds no session under that id - the request builds a fresh
empty `SessionManager()` and `update_session` refuses unknown ids instead of
creating them, so the merged preferences are never persisted. -/
theorem c2_session_never_persisted (sid question : String) (now : Nat) :
    storageGet (pipelineSessionStep (some sid) question now).1 sid = none := rfl

/-- C5 (counterexample): `top_k = 0` is an integer, so `int(top_k)` returns
it unchanged - the value used for truncation is 0, which is not positive;
and the non-integer float 3.7 is truncated to 3, not replaced by 5. -/
theorem c5_counterexample :
    ¬ (0 < coerce_top_k (.pint 0)) ∧
      coerce_top_k (.pfloat (mkRat 37 10)) ≠ 5 ∧
      coerce_top_k (.pfloat (mkRat 37 10)) = 3 := by decide

/-- C5 (amended): slices, `None`, lists, and strings on which `int(...)`
raises are replaced by the fallback 5, without raising; but integer values
pass through unchanged (including zero and negative ones), so the value used
for truncation is an integer, not necessarily a positive one. -/
theorem c5_top_k_coercion (a b st : Option Int) (xs : List Int) (s : String)
    (hs : pyIntOfString s = none) (i : Int) :
    coerce_top_k (.pslice a b st) = 5 ∧
      coerce_top_k .pnone = 5 ∧
      coerce_top_k (.plist xs) = 5 ∧
      coerce_top_k (.pstr s) = 5 ∧
      coerce_top_k (.pint i) = i := by
  refine ⟨rfl, rfl, rfl, ?_, rfl⟩
  simp only [coerce_top_k, hs]

theorem c5_witness :
    pyIntOfString "abc" = none ∧
      (coerce_top_k (.pslice none none none) = 5 ∧
        coerce_top_k .pnone = 5 ∧
        coerce_top_k (.plist [1, 2]) = 5 ∧
        coerce_top_k (.pstr "abc") = 5 ∧
        coerce_top_k (.pint (-3)) = -3) :=
  ⟨by decide, c5_top_k_coercion none none none [1, 2] "abc" (by decide) (-3)⟩

/-! ## Claim C8: merge idempotence -/

theorem dedupAux_of_covered (seen l : List String)
    (h : ∀ x ∈ l, x ∈ seen) : dedupAux seen l = [] := by
  induction l with
  | nil => rfl
  | cons x xs ih =>
    have hx : x ∈ seen := h x (by simp)
    simp only [dedupAux, if_pos hx]
    exact ih fun y hy => h y (by simp [hy])

theorem dedupAux_append (seen a b : List String)
    (hb : ∀ x ∈ b, x ∈ seen ∨ x ∈ a) :
    dedupAux seen (a ++ b) = dedupAux seen a := by
  induction a generalizing seen with
  | nil =>
    simp only [List.nil_append, dedupAux]
    exact dedupAux_of_covered seen b fun x hx => by
      rcases hb x hx with h | h
      · exact h
      · simp at h
  | cons y ys ih =>
    by_cases hy : y ∈ seen
    · simp only [List.cons_append, dedupAux, if_pos hy]
      exact ih seen fun x hx => by
        rcases hb x hx with h | h
        · exact Or.inl h
        · rcases List.mem_cons.mp h with rfl | h2
          · exact Or.inl hy
          · exact Or.inr h2
    · simp only [List.cons_append, dedupAux, if_neg hy]
      congr 1
      exact ih (y :: seen) fun x hx => by
        rcases hb x hx with h | h
        · exact Or.inl (List.mem_cons_of_mem _ h)
        · rcases List.mem_cons.mp h with rfl | h2
          · exact Or.inl (List.mem_cons_self _ _)
          · exact Or.inr h2

theorem pySetList_append_self (l : List String) :
    pySetList (l ++ l) = pySetList l :=
  dedupAux_append [] l l fun _ hx => Or.inr hx

theorem dedupAux_of_nodup (l : List String) : ∀ seen : List String,
    l.Nodup → (∀ x ∈ l, x ∉ seen) → dedupAux seen l = l := by
  induction l with
  | nil => intro seen _ _; rfl
  | cons x xs ih =>
    intro seen hn hd
    have hx : x ∉ seen := hd x (by simp)
    simp only [dedupAux, if_neg hx]
    congr 1
    exact ih (x :: seen) (List.Nodup.of_cons hn) fun y hy => by
      intro hmem
      rcases List.mem_cons.mp hmem with rfl | h2
      · exact (List.nodup_cons.mp hn).1 hy
      · exact hd y (by simp [hy]) h2

theorem pySetList_of_nodup (l : List String) (h : l.Nodup) :
    pySetList l = l :=
  dedupAux_of_nodup l [] h fun x _ => by simp

/-- C8 (counterexample): a preference record whose interests list holds a
duplicate is changed by merging with an identical copy - `list(set(...))`
collapses the duplicates (`["gifts", "gifts"]` becomes the singleton). -/
theorem c8_counterexample :
    mergePreferences ⟨none, none, none, some ["gifts", "gifts"], none⟩
        ⟨none, none, none, some ["gifts", "gifts"], none⟩ ≠
      ⟨none, none, none, some ["gifts", "gifts"], none⟩ := by decide

/-- C8 (amended): merging a preference record with an identical copy is a
no-op provided its list-valued field is duplicate-free (which holds for
every record the pipeline itself produces); scalar fields are always kept,
and the interests list is replaced by its duplicate-free element set. -/
theorem c8_merge_self_noop (P : Preferences)
    (h : ∀ l, P.interests = some l → l.Nodup) :
    mergePreferences P P = P := by
  obtain ⟨g, a, o, i, pr⟩ := P
  unfold mergePreferences
  cases g <;> cases a <;> cases o <;> cases pr <;> cases i <;>
    simp_all [pySetList_append_self, pySetList_of_nodup]

theorem c8_witness :
    mergePreferences
        ⟨some "female", none, some "birthday", some ["gifts", "music"], none⟩
        ⟨some "female", none, some "birthday", some ["gifts", "music"], none⟩ =
      ⟨some "female", none, some "birthday", some ["gifts", "music"], none⟩ :=
  c8_merge_self_noop
    ⟨some "female", none, some "birthday", some ["gifts", "music"], none⟩
    (fun l hl => by cases hl; decide)

/-! ## Claim C1: weighted repetition in `join_fields` -/

unseal Rat.ofScientific in
/-- C1 (counterexample): a product with non-empty `name` and `brand` and no
other content.  `int(0.8) = 0` and `int(0.7) = 0`, so the loop body
`for _ in range(weight)` runs zero times for both fields: the assembled text
is empty - the non-empty configured fields contribute no copy at all. -/
theorem c1_counterexample :
    (Product.mk "giftbox" "" (.str "") (.str "") (.str "") (.str "") "" ""
          "bosch" "" "" (.str "") 0 "" "" "").brand ≠ "" ∧
      (Product.mk "giftbox" "" (.str "") (.str "") (.str "") (.str "") "" ""
          "bosch" "" "" (.str "") 0 "" "" "").name ≠ "" ∧
      joinPartsList
          (Product.mk "giftbox" "" (.str "") (.str "") (.str "") (.str "") ""
            "" "bosch" "" "" (.str "") 0 "" "" "")
          CONTENT_FIELDS FIELD_WEIGHTS = [] ∧
      join_fields
          (Product.mk "giftbox" "" (.str "") (.str "") (.str "") (.str "") ""
            "" "bosch" "" "" (.str "") 0 "" "" "")
          CONTENT_FIELDS FIELD_WEIGHTS = "" := by
  refine ⟨by decide, by decide, ?_, ?_⟩ <;> rfl

/-- C1 (amended): a configured content field contributes copies of its
content exactly when its weight rounds down to at least 1: for every field
in `CONTENT_FIELDS` whose floored weight is ≥ 1, every non-empty element of
its value appears in the assembled parts list.  (Fields with weight < 1 -
`name` at 0.8 and `brand` at 0.7 - are repeated `int(weight) = 0` times, as
the counterexample shows.) -/
theorem c1_weighted_field_contribution (p : Product) (f : String)
    (hf : f ∈ CONTENT_FIELDS) (hw : 1 ≤ intWeight FIELD_WEIGHTS f)
    (v : String) (hv : v ∈ fieldVals (getField p f)) (hne : v ≠ "") :
    v ∈ joinPartsList p CONTENT_FIELDS FIELD_WEIGHTS := by
  have hnf : fieldFalsy (getField p f) = false := by
    cases hval : getField p f with
    | str s =>
      rw [hval] at hv
      simp only [fieldVals, List.mem_singleton] at hv
      subst hv
      simpa [fieldFalsy] using hne
    | list l =>
      rw [hval] at hv
      simp only [fieldVals, List.mem_filter] at hv
      have : l ≠ [] := by
        intro hl
        rw [hl] at hv
        simp at hv
      simpa [fieldFalsy] using this
  apply List.mem_flatMap.mpr
  refine ⟨f, hf, ?_⟩
  unfold fieldParts
  simp only [hnf, Bool.false_eq_true, if_false]
  apply List.mem_flatten.mpr
  refine ⟨fieldVals (getField p f), ?_, hv⟩
  apply List.mem_replicate.mpr
  exact ⟨by omega, rfl⟩

unseal Rat.ofScientific in
theorem c1_witness :
    "birthday" ∈ fieldVals (getField sampleProduct "occasion") ∧
      "birthday" ∈ joinPartsList sampleProduct CONTENT_FIELDS FIELD_WEIGHTS :=
  ⟨by decide,
    c1_weighted_field_contribution sampleProduct "occasion" (by decide)
      (by decide) "birthday" (by decide) (by decide)⟩

/-! ## Claim C3: qualitative budget is skipped on a range match -/

/-- C3 (counterexample): a text matching both the explicit range pattern and
a qualitative budget keyword.  `_extract_budget` returns only min/max with
`qualitative = None`: the `return budget_info` in the range branch skips the
qualitative step, although the keyword search would have matched. -/
theorem c3_counterexample :
    budgetRangeSearch "من 200 ل 300 جنيه حاجه رخيصه" = some (200, 300) ∧
      extractFromKeywords "من 200 ل 300 جنيه حاجه رخيصه"
          BUDGET_QUALITATIVE_KEYWORDS = some "رخيص" ∧
      _extract_budget "من 200 ل 300 جنيه حاجه رخيصه" =
        some ⟨some 200, some 300, none, none⟩ := by
  refine ⟨?_, ?_, ?_⟩ <;> rfl

/-- C3 (amended): the qualitative keyword category is attempted only when
the explicit range pattern did not match: whenever the range pattern
matches, `_extract_budget` returns exactly the min/max pair, with `approx`
and `qualitative` both absent, regardless of any qualitative keyword in the
text. -/
theorem c3_budget_range_overrides_qualitative (t : String) (a b : Nat)
    (h : budgetRangeSearch t = some (a, b)) :
    _extract_budget t = some ⟨some a, some b, none, none⟩ := by
  unfold _extract_budget
  rw [h]

theorem c3_witness :
    budgetRangeSearch "من 200 ل 300 جنيه مصري" = some (200, 300) ∧
      _extract_budget "من 200 ل 300 جنيه مصري" =
        some ⟨some 200, some 300, none, none⟩ :=
  ⟨rfl, c3_budget_range_overrides_qualitative "من 200 ل 300 جنيه مصري" 200 300 rfl⟩

/-! ## Claim C4: the end-to-end extraction scenario -/

/-- C4 (evaluation): the full extraction result for the scenario text.  The
occasion, numeric age 15, teen age group, budget approx 500 and the female
gender inferred from the recipient type all agree with the claim, but the
interests list comes out empty: the text carries the music word with the
definite article (الموسيقى), the keyword موسيقى is matched only between word
boundaries, and the article letters are word characters, so no interest
keyword matches. -/
theorem c4_scenario_extraction :
    extract_context
        "هديه عيد ميلاد لبنت عندها 15 سنة بتحب الموسيقى وميزانيتي حوالي 500 جنيه" =
      ⟨some "عيد ميلاد", some "بنت", none, some ⟨some 15, some "مراهق"⟩, [],
        some ⟨none, none, some 500, none⟩, none, some "أنثى",
        "هديه عيد ميلاد لبنت عندها 15 سنه بتحب الموسيقى وميزانيتي حوالي 500 جنيه"⟩ :=
  rfl

/-! ## Claim C6: the preference filter never empties a non-empty list -/

/-- C6: for every non-empty candidate list and preference record, the
preference filter returns a non-empty list; and whenever its per-candidate
stage would drop every candidate (each one hard-filtered or scored 0), the
output is exactly the original pre-filter list. -/
theorem c6_filter_never_empties (prefs : Preferences) (cands : List Candidate)
    (h : cands ≠ []) :
    filter_products_by_preferences cands prefs ≠ [] ∧
      (cands.filterMap (candPrefResult prefs) = [] →
        filter_products_by_preferences cands prefs = cands) := by
  unfold filter_products_by_preferences
  by_cases he : prefsEmpty prefs
  · simp [he, h]
  · simp only [he, Bool.false_eq_true, if_false]
    by_cases hf : cands.filterMap (candPrefResult prefs) = []
    · simp [hf, h]
    · have : (cands.filterMap (candPrefResult prefs)).isEmpty = false := by
        simpa [List.isEmpty_iff] using hf
      simp [this, hf]

theorem c6_witness :
    ([sampleCandidate] : List Candidate) ≠ [] ∧
      filter_products_by_preferences [sampleCandidate] emptyPreferences ≠ [] :=
  ⟨by simp,
    (c6_filter_never_empties emptyPreferences [sampleCandidate] (by simp)).1⟩

/-! ## Claim C7: the 0.15 similarity floor survives the whole pipeline -/

theorem candidateStage_score (simf : Product → Option Rat)
    (products : List Product) (c : Candidate)
    (hc : c ∈ candidateStage simf products) : ¬ (c.score < (0.15 : Rat)) := by
  unfold candidateStage at hc
  obtain ⟨p, _, hfp⟩ := List.mem_filterMap.mp hc
  dsimp only at hfp
  split at hfp
  · exact Option.noConfusion hfp
  · cases hsim : simf p with
    | none => rw [hsim] at hfp; exact Option.noConfusion hfp
    | some sim =>
      rw [hsim] at hfp
      dsimp only at hfp
      by_cases hlt : sim < (0.15 : Rat)
      · rw [if_pos hlt] at hfp
        exact Option.noConfusion hfp
      · rw [if_neg hlt] at hfp
        have hcc : mkCandidate p sim = c := Option.some.inj hfp
        rw [← hcc]
        exact hlt

theorem keepIfScored_score (c0 c : Candidate) (s5 : Nat)
    (h : keepIfScored c0 s5 = some c) : c.score = c0.score := by
  unfold keepIfScored at h
  split at h
  · have := Option.some.inj h
    rw [← this]
  · exact Option.noConfusion h

theorem candPrefResult_score (prefs : Preferences) (c0 c : Candidate)
    (h : candPrefResult prefs c0 = some c) : c.score = c0.score := by
  unfold candPrefResult at h
  split at h
  · exact Option.noConfusion h
  · split at h
    · exact Option.noConfusion h
    · exact keepIfScored_score c0 c _ h

theorem filterPrefs_mem (prefs : Preferences) (cands : List Candidate)
    (c : Candidate) (hc : c ∈ filter_products_by_preferences cands prefs) :
    ∃ c0 ∈ cands, c.score = c0.score := by
  unfold filter_products_by_preferences at hc
  split at hc
  · exact ⟨c, hc, rfl⟩
  · by_cases hf : (cands.filterMap (candPrefResult prefs)).isEmpty
    · simp only [hf, if_true] at hc
      exact ⟨c, hc, rfl⟩
    · have hf2 : (cands.filterMap (candPrefResult prefs)).isEmpty = false := by
        simpa using hf
      simp only [hf2, Bool.false_eq_true, if_false] at hc
      obtain ⟨c0, h0, heq⟩ := List.mem_filterMap.mp hc
      exact ⟨c0, h0, candPrefResult_score prefs c0 c heq⟩

theorem mem_insertDesc {α : Type} (key : α → Rat) (y x : α) (l : List α)
    (hx : x ∈ insertDesc key y l) : x = y ∨ x ∈ l := by
  induction l with
  | nil => simpa [insertDesc] using hx
  | cons z zs ih =>
    unfold insertDesc at hx
    split at hx
    · simpa using hx
    · rcases List.mem_cons.mp hx with rfl | h2
      · exact Or.inr (by simp)
      · rcases ih h2 with h | h
        · exact Or.inl h
        · exact Or.inr (by simp [h])

theorem mem_sortDesc {α : Type} (key : α → Rat) (l : List α) (x : α)
    (hx : x ∈ sortDesc key l) : x ∈ l := by
  induction l with
  | nil => simp [sortDesc] at hx
  | cons z zs ih =>
    unfold sortDesc at hx
    rcases mem_insertDesc key z x _ hx with rfl | h2
    · simp
    · simp [ih h2]

theorem re_rank_mem (q : List Candidate) (prefs : Preferences) (month year : Nat)
    (c : Candidate) (hc : c ∈ re_rank_products q prefs month year) : c ∈ q := by
  unfold re_rank_products at hc
  obtain ⟨pair, hpair, hfst⟩ := List.mem_map.mp hc
  have hmem := mem_sortDesc Prod.snd _ _ hpair
  obtain ⟨c0, hc0, hpc⟩ := List.mem_map.mp hmem
  rw [← hpc] at hfst
  rw [← hfst]
  exact hc0

theorem pySliceTake_mem {α : Type} (k : Int) (l : List α) (x : α)
    (hx : x ∈ pySliceTake k l) : x ∈ l := by
  unfold pySliceTake at hx
  split at hx
  · exact List.take_subset _ _ hx
  · exact List.take_subset _ _ hx

/-- C7: no candidate whose similarity is below 0.15 appears in the final
ranked output - the floor is enforced when candidates are built, and the
preference filter (including its unfiltered-list fallback), the quality
filter, the re-ranking and the top-k truncation only reorder, drop or copy
candidates without changing their similarity scores. -/
theorem c7_similarity_floor (simf : Product → Option Rat)
    (products : List Product) (prefs : Preferences) (month year : Nat)
    (top_k : Int) (c : Candidate)
    (hc : c ∈ suggestRanking simf products prefs month year top_k) :
    ¬ (c.score < (0.15 : Rat)) := by
  unfold suggestRanking at hc
  have h1 := pySliceTake_mem _ _ _ hc
  have h2 := re_rank_mem _ _ _ _ _ h1
  have h3 := (List.mem_filter.mp h2).1
  obtain ⟨c0, hc0, hscore⟩ := filterPrefs_mem _ _ _ h3
  rw [hscore]
  exact candidateStage_score _ _ _ hc0

unseal Rat.mul Rat.add Rat.ofScientific in
theorem c7_witness :
    mkCandidate sampleProduct (mkRat 1 2) ∈
      suggestRanking (fun _ => some (mkRat 1 2)) [sampleProduct]
        emptyPreferences 1 2025 5 ∧
      ¬ ((mkCandidate sampleProduct (mkRat 1 2)).score < (0.15 : Rat)) :=
  ⟨by decide,
    c7_similarity_floor (fun _ => some (mkRat 1 2)) [sampleProduct]
      emptyPreferences 1 2025 5 (mkCandidate sampleProduct (mkRat 1 2))
      (by decide)⟩
